import Mathlib

/-!
Verification of `hyper-usse` (an SSE fan-out broadcaster for Hyper).

The development shallowly embeds the two components of `src/lib.rs`:
* the event encoder `EventBuilder::build` (with a faithful model of Rust's
  `str::lines` iterator), together with the `Display` and `Into<Bytes>`
  impls that delegate to it;
* the broadcast registry `Server` with `add_client`, `send_to_clients`,
  `send_heartbeat`, `disconnect_all` and `connections`.

A client (`hyper::body::Sender`) is modelled by its observable behaviour:
whether a `send_data` of a given payload succeeds, the log of payloads it
has successfully received, and whether `abort` has been called on it.
-/

namespace HyperUsse

/-- Concatenation of a list of strings (the string an imperative sequence of
`push_str` calls builds). -/
def concatAll : List String → String
  | [] => ""
  | s :: rest => s ++ concatAll rest

/-- Split a character list at every `'\n'`; the separators are consumed and
every fragment is kept, so the result always has one more fragment than
there are `'\n'` characters. -/
def splitNl : List Char → List (List Char)
  | [] => [[]]
  | c :: cs =>
    if c = '\n' then [] :: splitNl cs
    else
      match splitNl cs with
      | [] => [[c]]
      | l :: ls => (c :: l) :: ls

/-- Strip one trailing `'\r'`, if present (the `\r\n` line terminator). -/
def stripCr (l : List Char) : List Char :=
  if l.getLast? = some '\r' then l.dropLast else l

/-- Model of Rust's `str::lines`: split on `'\n'`, drop the trailing empty
fragment produced by a final line terminator, and strip one trailing `'\r'`
from each line (so both `"\n"` and `"\r\n"` terminate a line).  In
particular `"".lines()` yields no lines at all. -/
def rustLines (s : String) : List String :=
  let parts := splitNl s.data
  let parts := if parts.getLast? = some [] then parts.dropLast else parts
  parts.map (fun l => String.mk (stripCr l))

/-- The `EventBuilder` struct: `data` plus optional `id` and `event_type`. -/
structure EventBuilder where
  data : String
  id : Option String
  event_type : Option String

/-- `EventBuilder::new(data)`: data only, no id, no event type. -/
def EventBuilder.new (data : String) : EventBuilder :=
  ⟨data, none, none⟩

/-- `EventBuilder::build`: emit `id: <id>\n` if the id is set, then
`event: <event>\n` if the event type is set, then `data: <line>\n` for each
line of `data` (in the sense of `str::lines`), then a final `'\n'`. -/
def EventBuilder.build (ev : EventBuilder) : String :=
  (match ev.id with
    | some i => "id: " ++ i ++ "\n"
    | none => "")
  ++ (match ev.event_type with
    | some e => "event: " ++ e ++ "\n"
    | none => "")
  ++ concatAll ((rustLines ev.data).map (fun l => "data: " ++ l ++ "\n"))
  ++ "\n"

/-- The lines (without terminators) that `build` emits before the final
blank line: the optional id line, then the optional event line, then one
`data: ` line per line of `data`, in order. -/
def EventBuilder.fieldLines (ev : EventBuilder) : List String :=
  (match ev.id with
    | some i => ["id: " ++ i]
    | none => [])
  ++ (match ev.event_type with
    | some e => ["event: " ++ e]
    | none => [])
  ++ (rustLines ev.data).map (fun l => "data: " ++ l)

/-- The `Display` impl: `f.write_str(&self.build())` appends the built
string to the formatter's buffer. -/
def EventBuilder.displayFmt (ev : EventBuilder) (buf : String) : String :=
  buf ++ ev.build

/-- The `Into<Bytes>` impl: `self.build().into()`, i.e. the UTF-8 bytes of
the built string. -/
def EventBuilder.intoBytes (ev : EventBuilder) : ByteArray :=
  ev.build.toUTF8

theorem concatAll_append (xs ys : List String) :
    concatAll (xs ++ ys) = concatAll xs ++ concatAll ys := by
  induction xs with
  | nil => simp [concatAll]
  | cons x xs ih => simp [concatAll, ih, String.append_assoc]

theorem build_eq_concat_fieldLines (ev : EventBuilder) :
    ev.build = concatAll ((ev.fieldLines ++ [""]).map (fun l => l ++ "\n")) := by
  cases ev with
  | mk d i e =>
    cases i <;> cases e <;>
      simp [EventBuilder.build, EventBuilder.fieldLines, concatAll_append,
        concatAll, List.map_map, Function.comp_def, String.append_assoc]

/-- A client handle (`hyper::body::Sender`), modelled by its observable
behaviour: `ok text` says whether a `send_data` of payload `text` succeeds
(the receiving end is still connected), `received` logs the payloads whose
send succeeded, and `aborted` records whether `abort` was called. -/
structure Client where
  ok : String → Bool
  received : List String
  aborted : Bool

/-- `Sender::send_data`: on success the payload reaches the client (logged
in `received`) and `Ok` comes back; on failure the payload is lost and
`Err` comes back.  The boolean is `.is_ok()` of the result. -/
def sendData (c : Client) (text : String) : Client × Bool :=
  if c.ok text then ({ c with received := c.received ++ [text] }, true)
  else (c, false)

/-- `Sender::abort`: forcibly terminate the stream. -/
def abortClient (c : Client) : Client :=
  { c with aborted := true }

/-- The `Server` struct: the collection of attached clients. -/
structure Server where
  clients : List Client

/-- `Server::new`: no clients. -/
def Server.new : Server :=
  ⟨[]⟩

/-- `Server::add_client`: push the client onto the collection. -/
def Server.add_client (s : Server) (c : Client) : Server :=
  ⟨s.clients ++ [c]⟩

/-- `Server::connections`: the size of the collection, no I/O. -/
def Server.connections (s : Server) : Nat :=
  s.clients.length

/-- `Server::send_to_clients`: attempt a `send_data` of `text` on every
attached client (`join_all` over the collection), then `retain` exactly the
clients whose send returned `Ok`, and return the length of the retained
collection. -/
def Server.send_to_clients (s : Server) (text : String) : Server × Nat :=
  let sent := s.clients.map (fun client => sendData client text)
  let retained := (sent.filter (fun r => r.snd)).map Prod.fst
  (⟨retained⟩, retained.length)

/-- `Server::send_heartbeat`: `send_to_clients(":\n\n")`. -/
def Server.send_heartbeat (s : Server) : Server × Nat :=
  s.send_to_clients ":\n\n"

/-- `Server::disconnect_all`: replace the collection by the empty one and
call `abort` on every drained client.  The aborted clients are returned as
a ghost second component so their final state stays observable (the Rust
code drops them). -/
def Server.disconnect_all (s : Server) : Server × List Client :=
  (⟨[]⟩, s.clients.map abortClient)

/-- `k` successive `send_heartbeat` calls, each on the server state the
previous one left behind. -/
def Server.iterate_heartbeats : Nat → Server → Server
  | 0, s => s
  | k + 1, s => Server.iterate_heartbeats k (s.send_heartbeat).fst

/-- A client whose sends always succeed. -/
def alwaysOkClient : Client :=
  ⟨fun _ => true, [], false⟩

/-- A demonstration server with two always-succeeding clients. -/
def demoServer : Server :=
  ⟨[alwaysOkClient, alwaysOkClient]⟩

theorem sendData_snd (c : Client) (text : String) :
    (sendData c text).snd = c.ok text := by
  cases h : c.ok text <;> simp [sendData, h]

theorem send_retained_eq (text : String) (cs : List Client) :
    ((cs.map (fun c => sendData c text)).filter (fun r => r.snd)).map Prod.fst
      = (cs.filter (fun c => c.ok text)).map
          (fun c => { c with received := c.received ++ [text] }) := by
  induction cs with
  | nil => rfl
  | cons c cs ih =>
      cases h : c.ok text <;>
        simp only [sendData] at ih ⊢ <;>
        simp [h, ih]

theorem send_to_clients_all_ok (s : Server) (text : String)
    (h : s.clients.all (fun c => c.ok text) = true) :
    (s.send_to_clients text).fst.clients
        = s.clients.map (fun c => { c with received := c.received ++ [text] })
    ∧ (s.send_to_clients text).snd = s.connections := by
  have hf : s.clients.filter (fun c => c.ok text) = s.clients := by
    rw [List.filter_eq_self]
    intro a ha
    exact List.all_eq_true.mp h a ha
  refine ⟨?_, ?_⟩ <;>
    simp [Server.send_to_clients, send_retained_eq, hf, Server.connections]

theorem heartbeat_preserves_all_ok (s : Server)
    (h : s.clients.all (fun c => c.ok ":\n\n") = true) :
    ((s.send_heartbeat).fst.clients.all (fun c => c.ok ":\n\n")) = true := by
  rw [Server.send_heartbeat, (send_to_clients_all_ok s ":\n\n" h).1]
  simpa [List.all_map, Function.comp_def] using h

theorem heartbeat_connections_all_ok (s : Server)
    (h : s.clients.all (fun c => c.ok ":\n\n") = true) :
    (s.send_heartbeat).fst.connections = s.connections := by
  show (s.send_heartbeat).fst.clients.length = s.connections
  rw [Server.send_heartbeat, (send_to_clients_all_ok s ":\n\n" h).1]
  simp [Server.connections]

/-- The heartbeat frame as the spec words it: the comment line `:`
followed by a blank line (refinement target for C5). -/
def heartbeatFrameSpec : String :=
  ":" ++ "\n" ++ "\n"

/-- C1: `send_to_clients` attempts a write on every attached handle (one
`sendData` outcome per handle, in order), afterwards retains exactly the
handles whose write succeeded (each with the payload delivered), discards
the failed ones, and returns the number of retained handles; the write
failures are only ever reflected in the count, never as an error. -/
theorem send_to_clients_spec (s : Server) (text : String) :
    (s.clients.map (fun c => (sendData c text).snd))
        = s.clients.map (fun c => c.ok text)
    ∧ (s.send_to_clients text).fst.clients
        = (s.clients.filter (fun c => c.ok text)).map
            (fun c => { c with received := c.received ++ [text] })
    ∧ (s.send_to_clients text).snd
        = (s.clients.filter (fun c => c.ok text)).length
    ∧ (s.send_to_clients text).snd = (s.send_to_clients text).fst.connections := by
  refine ⟨?_, ?_, ?_, rfl⟩
  · simp [sendData_snd]
  · simp [Server.send_to_clients, send_retained_eq]
  · simp [Server.send_to_clients, send_retained_eq]

/-- C2 counterexample: for the event with empty data and no id/event,
`build` returns `"\n"` — just the terminating blank line — not
`"data: \n\n"`, because Rust's `str::lines` yields no line at all on the
empty string. -/
theorem encode_empty_data_counterexample :
    EventBuilder.build (EventBuilder.new "") = "\n"
    ∧ EventBuilder.build (EventBuilder.new "") ≠ "data: \n\n" := by
  decide

/-- C2 (amended): the encoder splits data at line terminators and emits one
`data: ` line per segment, in order, including interior empty segments (a
blank line in the input produces a `data: ` line); but a final line
terminator produces no extra segment and the empty string splits into no
segments, so `encode({data: ""})` is `"\n"` with no data line. -/
theorem encode_data_segments :
    EventBuilder.build (EventBuilder.new "a\n\nb")
        = "data: a\ndata: \ndata: b\n\n"
    ∧ rustLines "a\n\nb" = ["a", "", "b"]
    ∧ rustLines "a\n" = ["a"]
    ∧ rustLines "" = []
    ∧ EventBuilder.build (EventBuilder.new "") = "\n" := by
  decide

/-- C3: the event with data `"a\nb"`, id `"1"` and event type `"msg"`
encodes to exactly `"id: 1\nevent: msg\ndata: a\ndata: b\n\n"`; and in
general the encoding is the optional id line, then the optional event
line, then one data line per input line in order, terminated by exactly
one blank line. -/
theorem encode_full_event :
    EventBuilder.build ⟨"a\nb", some "1", some "msg"⟩
        = "id: 1\nevent: msg\ndata: a\ndata: b\n\n"
    ∧ ∀ ev : EventBuilder,
        ev.build = concatAll ((ev.fieldLines ++ [""]).map (fun l => l ++ "\n")) :=
  ⟨by decide, build_eq_concat_fieldLines⟩

/-- C4 counterexample: for the event with data `"x"` and id `"a\nb"`,
`build` neither rejects nor truncates: it emits the multi-line id value
verbatim, so the output is `"id: a\nb\ndata: x\n\n"`, not the
first-line-only `"id: a\ndata: x\n\n"`; and with id `"a\n\nb"` the output
read back as lines contains a premature blank line, i.e. corrupted
framing. -/
theorem encode_multiline_id_counterexample :
    EventBuilder.build ⟨"x", some "a\nb", none⟩ = "id: a\nb\ndata: x\n\n"
    ∧ EventBuilder.build ⟨"x", some "a\nb", none⟩ ≠ "id: a\ndata: x\n\n"
    ∧ (splitNl (EventBuilder.build ⟨"x", some "a\n\nb", none⟩).data).map String.mk
        = ["id: a", "", "b", "data: x", "", ""] := by
  decide

/-- C4 (amended): the encoder performs no validation or truncation of the
id and event values: whatever string is supplied — embedded line breaks
included — is copied verbatim between the field prefix and the terminating
newline, so a multi-line id or event value does corrupt framing and
avoiding such values is the caller's responsibility. -/
theorem encode_id_event_verbatim (d i e : String) (eo : Option String) :
    EventBuilder.build ⟨d, some i, eo⟩
        = "id: " ++ i ++ "\n" ++ EventBuilder.build ⟨d, none, eo⟩
    ∧ EventBuilder.build ⟨d, none, some e⟩
        = "event: " ++ e ++ "\n" ++ EventBuilder.build ⟨d, none, none⟩ := by
  constructor
  · cases eo <;> simp [EventBuilder.build, String.append_assoc]
  · simp [EventBuilder.build, String.append_assoc]

/-- C5: `send_heartbeat` is exactly `send_to_clients` applied to the
heartbeat frame, and that frame is the comment line `:` followed by a
blank line, i.e. the literal `":\n\n"`; in particular the resulting client
collection and the returned count coincide. -/
theorem send_heartbeat_refines_broadcast (s : Server) :
    s.send_heartbeat = s.send_to_clients heartbeatFrameSpec
    ∧ heartbeatFrameSpec = ":\n\n"
    ∧ (s.send_heartbeat).fst.clients = (s.send_to_clients ":\n\n").fst.clients
    ∧ (s.send_heartbeat).snd = (s.send_to_clients ":\n\n").snd := by
  refine ⟨?_, by decide, rfl, rfl⟩
  show s.send_to_clients ":\n\n" = s.send_to_clients heartbeatFrameSpec
  have : heartbeatFrameSpec = ":\n\n" := by decide
  rw [this]

/-- C6: `disconnect_all` aborts every attached handle, empties the client
collection (so `connections` is then 0), and a subsequent broadcast
attempts no write at all: it acts on an empty collection and returns
count 0. -/
theorem disconnect_all_spec (s : Server) (text : String) :
    (s.disconnect_all).fst.clients = []
    ∧ (s.disconnect_all).fst.connections = 0
    ∧ (s.disconnect_all).snd.length = s.connections
    ∧ ((s.disconnect_all).snd.all (fun c => c.aborted)) = true
    ∧ (s.disconnect_all).fst.send_to_clients text = (⟨[]⟩, 0) := by
  refine ⟨rfl, rfl, ?_, ?_, rfl⟩
  · simp [Server.disconnect_all, Server.connections]
  · simp [Server.disconnect_all, abortClient, List.all_map, Function.comp_def]

/-- C7: if no attached client's write fails on the heartbeat frame, then
any number of successive `send_heartbeat` calls leaves `connections`
unchanged, and the next heartbeat still returns that same count. -/
theorem heartbeat_idempotent_counts (s : Server)
    (h : s.clients.all (fun c => c.ok ":\n\n") = true) (k : Nat) :
    (Server.iterate_heartbeats k s).connections = s.connections
    ∧ ((Server.iterate_heartbeats k s).send_heartbeat).snd = s.connections := by
  induction k generalizing s with
  | zero =>
      refine ⟨rfl, ?_⟩
      show (s.send_to_clients ":\n\n").snd = s.connections
      exact (send_to_clients_all_ok s ":\n\n" h).2
  | succ k ih =>
      have h' := heartbeat_preserves_all_ok s h
      have hc := heartbeat_connections_all_ok s h
      obtain ⟨ih1, ih2⟩ := ih (s.send_heartbeat).fst h'
      exact ⟨by rw [Server.iterate_heartbeats, ih1, hc],
        by rw [Server.iterate_heartbeats, ih2, hc]⟩

/-- C7 witness: a concrete server of two always-succeeding clients
satisfies the no-failure hypothesis, and three heartbeats leave its
connection count unchanged. -/
theorem heartbeat_idempotent_counts_witness :
    demoServer.clients.all (fun c => c.ok ":\n\n") = true
    ∧ (Server.iterate_heartbeats 3 demoServer).connections
        = demoServer.connections
    ∧ ((Server.iterate_heartbeats 3 demoServer).send_heartbeat).snd
        = demoServer.connections :=
  ⟨rfl, (heartbeat_idempotent_counts demoServer rfl 3).1,
    (heartbeat_idempotent_counts demoServer rfl 3).2⟩

/-- C8: `add_client` always succeeds, preserves the already-attached
clients and grows the collection by exactly one; `connections` is a pure
projection of the collection, and after attaching two clients to a fresh
server it returns 2. -/
theorem add_client_spec (s : Server) (c h1 h2 : Client) :
    (s.add_client c).connections = s.connections + 1
    ∧ (s.add_client c).clients.take s.clients.length = s.clients
    ∧ (s.add_client c).clients.length = (s.add_client c).connections
    ∧ ((Server.new.add_client h1).add_client h2).connections = 2 := by
  refine ⟨?_, ?_, rfl, rfl⟩
  · simp [Server.add_client, Server.connections]
  · simp [Server.add_client, List.take_left]

/-- C10: the `Display` impl writes to the formatter exactly the string
`build` returns (appending it to whatever the formatter already holds),
and the `Into<Bytes>` impl produces exactly the bytes of that string. -/
theorem display_intoBytes_agree (ev : EventBuilder) (buf : String) :
    ev.displayFmt buf = buf ++ ev.build
    ∧ ev.displayFmt "" = ev.build
    ∧ ev.intoBytes = ev.build.toUTF8 :=
  ⟨rfl, rfl, rfl⟩

end HyperUsse
